import Mathlib

/-!
# Verification of the replay focus-area panel dispatcher

Shallow embedding of `src/static/app/views/replays/detail/focusArea.tsx`
(the `FocusArea` tab dispatcher and `getBreadcrumbsByCategory`) and of the
`WidgetLibrary` component found in the same source file, together with
proofs of the specification's testable properties.

Modelling conventions:
* JavaScript `null`/`undefined` values become `Option`.
* The breadcrumb, span and event payloads are structures carrying exactly
  the fields the embedded code reads or writes.
* `ReplayReader` (an external class; only its call sites are in the
  sources) is a record of the accessors the dispatcher uses:
  `getRawSpans`, `getRawCrumbs`, `getEvent` become list/record fields, and
  its `isMemorySpan` / `isNotMemorySpan` predicate methods become function
  fields, so the dispatcher is verified for every possible reader.
* JSX return values become the `ViewOutput` inductive, one constructor per
  distinct element the dispatcher can return, carrying the props that the
  dispatcher computes.
-/

namespace Sentry

/-- A raw breadcrumb (`RawCrumb`): the embedded code reads its `type`
(breadcrumb type tag) and `category` (optional, `undefined` becomes
`none`); `message` is carried as representative payload. -/
structure RawCrumb where
  type : String
  category : Option String
  message : Option String
deriving DecidableEq, Repr

/-- Modelled from the spec: `isBreadcrumbTypeDefault` is imported from
`sentry/types/breadcrumbs`, whose source is not part of the supplied
files; the spec and claims describe it only as the predicate recognising
the default breadcrumb type, so it is modelled as a check that the
crumb's `type` tag is the default one. -/
def isBreadcrumbTypeDefault (c : RawCrumb) : Bool :=
  c.type == "default"

/-- `getBreadcrumbsByCategory(breadcrumbs, categories)`: keep the crumbs of
the default breadcrumb type whose category (absent category read as the
empty string, mirroring `breadcrumb.category || ''`) is one of the
requested categories. -/
def getBreadcrumbsByCategory (breadcrumbs : List RawCrumb)
    (categories : List String) : List RawCrumb :=
  (breadcrumbs.filter isBreadcrumbTypeDefault).filter
    (fun breadcrumb => categories.contains (breadcrumb.category.getD ""))

/-- A raw replay span. The dispatcher reads `startTimestamp` and
`endTimestamp` and passes the remaining payload through unchanged; `op`
and `data` stand for that remaining payload. -/
structure RawSpan where
  op : String
  startTimestamp : Nat
  endTimestamp : Nat
  data : Nat
deriving DecidableEq, Repr

/-- The replay's event (`EventTransaction`): the fields the dispatcher
reads (`startTimestamp`, `id`, `projectID`). -/
structure Event where
  id : String
  projectID : String
  startTimestamp : Nat
deriving DecidableEq, Repr

/-- The `ReplayReader` handle: `rawSpans`, `rawCrumbs` and `event` embed
the `getRawSpans()`, `getRawCrumbs()` and `getEvent()` accessors; `rid` is
the JavaScript object identity of the reader (used by the `useMemo`
dependency comparison); `isMemorySpan` and `isNotMemorySpan` are the
reader's span-classification methods, kept abstract since the class body
is outside the supplied sources. -/
structure ReplayReader where
  rid : Nat
  rawSpans : List RawSpan
  rawCrumbs : List RawCrumb
  event : Event
  isMemorySpan : RawSpan → Bool
  isNotMemorySpan : RawSpan → Bool

/-- The shared replay context read by the dispatcher
(`currentTime`, `currentHoverTime`); the setters are passed through to
panels untouched and are omitted. -/
structure SharedContext where
  currentTime : Nat
  currentHoverTime : Option Nat
deriving DecidableEq, Repr

/-- The synthetic trace context built in the `network` case. -/
structure TraceContext where
  type : String
  op : String
  description : String
  span_id : String
  status : String
deriving DecidableEq, Repr

/-- A synthetic span as built in the `network` case: the raw span with
`startTimestamp`/`endTimestamp` renamed to `start_timestamp`/`timestamp`
and a `parent_span_id` added; `op` and `data` are the untouched payload. -/
structure SyntheticSpan where
  op : String
  data : Nat
  timestamp : Nat
  start_timestamp : Nat
  parent_span_id : String
deriving DecidableEq, Repr

/-- The faked spans entry (`{type: EntryType.SPANS, data: ...}`). -/
structure SpansEntry where
  type : String
  data : List SyntheticSpan
deriving DecidableEq, Repr

/-- The synthetic performance event handed to the `Spans` view: the
replay event's fields with the faked trace context and entries. -/
structure PerformanceEvent where
  id : String
  projectID : String
  startTimestamp : Nat
  contexts_trace : TraceContext
  entries : List SpansEntry
deriving DecidableEq, Repr

/-- One dispatch's rendered output: one constructor per distinct JSX
element `FocusArea` can return, carrying the props the dispatcher
computes. `placeholder` is the loading state, `empty` is the `null`
returned by the switch's `default` branch. -/
inductive ViewOutput where
  | placeholder (height : String)
  | empty
  | console (breadcrumbs : List RawCrumb) (startTimestamp : Nat)
  | spansView (event : PerformanceEvent)
  | trace (event : Event)
  | issues (replayId : String) (projectId : String)
  | tags (event : Event)
  | memory (currentTime : Nat) (currentHoverTime : Option Nat)
      (memorySpans : List RawSpan) (startTimestamp : Nat)

/-- The span-to-synthetic-span projection of the `network` case:
`({startTimestamp, endTimestamp, ...span}) => ({...span, timestamp:
endTimestamp, start_timestamp: startTimestamp, parent_span_id:
'replay_network_trace'})`. -/
def fakeNetworkSpan (s : RawSpan) : SyntheticSpan :=
  { op := s.op
    data := s.data
    timestamp := s.endTimestamp
    start_timestamp := s.startTimestamp
    parent_span_id := "replay_network_trace" }

/-- The `FocusArea` dispatcher. `replay` is the nullable reader prop,
`active` is the key produced by `useActiveTabFromLocation`, `ctx` the
shared replay context. `memorySpans` mirrors the memoised
`replay?.getRawSpans().filter(replay.isMemorySpan)` (so it is `none`
exactly when `replay` is); the `!replay || !memorySpans` guard returns the
placeholder, then the switch on `active` selects the panel, falling
through to `null` (`ViewOutput.empty`) on an unknown key. -/
def FocusArea (replay : Option ReplayReader) (active : String)
    (ctx : SharedContext) : ViewOutput :=
  let memorySpans : Option (List RawSpan) :=
    replay.map (fun r => r.rawSpans.filter r.isMemorySpan)
  match replay, memorySpans with
  | none, _ => ViewOutput.placeholder "150px"
  | _, none => ViewOutput.placeholder "150px"
  | some replay, some memorySpans =>
    let event := replay.event
    if active = "console" then
      let consoleMessages :=
        getBreadcrumbsByCategory replay.rawCrumbs ["console"]
      ViewOutput.console consoleMessages event.startTimestamp
    else if active = "network" then
      let nonMemorySpansEntry : SpansEntry :=
        { type := "spans"
          data := (replay.rawSpans.filter replay.isNotMemorySpan).map
            fakeNetworkSpan }
      let performanceEvent : PerformanceEvent :=
        { id := event.id
          projectID := event.projectID
          startTimestamp := event.startTimestamp
          contexts_trace :=
            { type := "trace"
              op := "Network"
              description := "WIP"
              span_id := "replay_network_trace"
              status := "ok" }
          entries := [nonMemorySpansEntry] }
      ViewOutput.spansView performanceEvent
    else if active = "trace" then
      ViewOutput.trace event
    else if active = "issues" then
      ViewOutput.issues event.id event.projectID
    else if active = "tags" then
      ViewOutput.tags event
    else if active = "memory" then
      ViewOutput.memory ctx.currentTime ctx.currentHoverTime memorySpans
        event.startTimestamp
    else
      ViewOutput.empty

/-!
## Derived-input cache (`useMemo` on `[replay]`)

`const memorySpans = useMemo(() => replay?.getRawSpans()
.filter(replay.isMemorySpan), [replay])` is the one memoised derived
input. React's `useMemo` keeps a single cache slot per hook instance:
on each render it compares the dependency list against the previously
seen one by object identity and either returns the cached value (same
identity) or runs the computation again (new identity), allocating a
fresh result object. The stateful hook is embedded by explicit state
passing: `MemoState` is the hook's slot, a dispatch threads it through
`memorySpansMemo`, and JavaScript reference identity of both the
dependency and the computed value is made observable through `Nat`
identity tags (`ReplayReader.rid` for the dependency, `Ref.tag` for the
freshly allocated filter result).
-/

/-- A heap value together with its allocation identity tag. -/
structure Ref (α : Type) where
  tag : Nat
  val : α
deriving DecidableEq, Repr

/-- The single cache slot of the `useMemo` hook: the identity of the
dependency (`replay`) last seen, and the cached result reference. -/
structure MemoState (α : Type) where
  depId : Nat
  cached : Ref α
deriving DecidableEq, Repr

/-- One render's pass through a `useMemo` hook whose dependency list is
`[dep]`: on a cache hit (same dependency identity) return the cached
reference unchanged and report no recomputation; otherwise run the
computation, allocate the result at the fresh tag `freshTag`, and report
a recomputation. -/
def useMemoStep {α : Type} (st : Option (MemoState α)) (depId : Nat)
    (value : α) (freshTag : Nat) : MemoState α × Bool :=
  match st with
  | some s =>
    if s.depId = depId then (s, false)
    else ({ depId := depId, cached := ⟨freshTag, value⟩ }, true)
  | none => ({ depId := depId, cached := ⟨freshTag, value⟩ }, true)

/-- The `memorySpans` memo of `FocusArea` for an available reader: the
dependency is the reader object (compared by identity `rid`) and the
computation is `replay.getRawSpans().filter(replay.isMemorySpan)`. -/
def memorySpansMemo (st : Option (MemoState (List RawSpan)))
    (replay : ReplayReader) (freshTag : Nat) :
    MemoState (List RawSpan) × Bool :=
  useMemoStep st replay.rid (replay.rawSpans.filter replay.isMemorySpan)
    freshTag

/-!
## Dispatch trace

The temporal claims speak about the order of steps inside one dispatch
cycle. `dispatchTrace` records, in source order, the observable steps of
one `FocusArea` call on a cold derived-input cache: the
`useActiveTabFromLocation()` hook call (active-key resolution, line 31),
the memoised memory-subset filter (lines 38-40, executed only when
`replay` is non-null since the optional chain short-circuits), the
`!replay || !memorySpans` readiness guard (line 42), and — only when the
guard passes — the switch dispatch on the active key (line 48) followed
by the matched branch's own derived-input computations and render.
-/

/-- An observable step of one dispatch cycle. -/
inductive Step where
  | resolveKey
  | computeMemorySubset
  | readinessCheck
  | lookupPanel
  | computeConsoleSubset
  | computeNonMemorySubset
  | renderPanel
deriving DecidableEq, Repr

/-- The steps the matched switch branch performs: the `console` branch
computes the console breadcrumb subset, the `network` branch computes the
non-memory span subset, the other known branches only render, and the
`default` branch does nothing (`return null`). -/
def branchSteps (active : String) : List Step :=
  if active = "console" then [Step.computeConsoleSubset, Step.renderPanel]
  else if active = "network" then
    [Step.computeNonMemorySubset, Step.renderPanel]
  else if active = "trace" then [Step.renderPanel]
  else if active = "issues" then [Step.renderPanel]
  else if active = "tags" then [Step.renderPanel]
  else if active = "memory" then [Step.renderPanel]
  else []

/-- The ordered step trace of one `FocusArea` dispatch on a cold cache.
With `replay` null the memo's optional chain computes nothing and the
readiness guard fails, ending the cycle at the placeholder; otherwise
the memory subset is computed, the guard passes, and the switch runs. -/
def dispatchTrace (replay : Option ReplayReader) (active : String) :
    List Step :=
  match replay with
  | none => [Step.resolveKey, Step.readinessCheck]
  | some _ =>
    [Step.resolveKey, Step.computeMemorySubset, Step.readinessCheck,
      Step.lookupPanel] ++ branchSteps active

/-- Which panels consume the memory-subset derived input: reading the
switch branches, only the `memory` branch passes `memorySpans` to its
panel. -/
def requiresMemorySubset (active : String) : Bool :=
  active = "memory"

/-!
## `WidgetLibrary`

The second component in the source file. Its external collaborators are
kept abstract: `getTopNConvertedDefaultWidgets()` becomes the
`defaultWidgets` parameter, `normalizeQueries` a function parameter, and
clicking a card is embedded as the `ClickAction` the click handler
performs — either calling `onWidgetSelect(widget)` directly or opening
the overwrite-confirmation modal whose `onConfirm` callback is
`() => onWidgetSelect(widget)`.
-/

/-- The `WidgetType` enumeration (only membership in the release type
matters to the embedded logic). -/
inductive WidgetType where
  | discover
  | issue
  | release
deriving DecidableEq, Repr

/-- A widget template card: title, type, display type and queries (the
query payload is opaque to the embedded logic). -/
structure WidgetTemplate where
  title : String
  widgetType : WidgetType
  displayType : String
  queries : List String
deriving DecidableEq, Repr

/-- The widget list after the feature gate: when the organization's
features do not include `dashboards-releases`, widgets of the release
type are filtered out; otherwise the default list is kept as is. -/
def libraryWidgets (defaultWidgets : List WidgetTemplate)
    (features : List String) : List WidgetTemplate :=
  if !(features.contains "dashboards-releases") then
    defaultWidgets.filter (fun widget => !(widget.widgetType == WidgetType.release))
  else
    defaultWidgets

/-- The per-card widget transformation: `TOP_N` display becomes `TABLE`
under the new design, and the queries are normalised by the external
`normalizeQueries` (a parameter `nq` taking display type, queries, the
new-design flag and widget type). -/
def toNewWidget (widgetBuilderNewDesign : Bool)
    (nq : String → List String → Bool → WidgetType → List String)
    (widget : WidgetTemplate) : WidgetTemplate :=
  let displayType :=
    if widgetBuilderNewDesign && widget.displayType == "top_n" then "table"
    else widget.displayType
  { widget with
      displayType := displayType
      queries := nq displayType widget.queries widgetBuilderNewDesign
        widget.widgetType }

/-- The list of widgets rendered as cards by `WidgetLibrary`: the
feature-gated list, each mapped through the card transformation. -/
def renderedCards (defaultWidgets : List WidgetTemplate)
    (features : List String) (widgetBuilderNewDesign : Bool)
    (nq : String → List String → Bool → WidgetType → List String) :
    List WidgetTemplate :=
  (libraryWidgets defaultWidgets features).map
    (toNewWidget widgetBuilderNewDesign nq)

/-- The effect of clicking a card: either `onWidgetSelect` is invoked
directly on the widget, or the overwrite modal is opened with an
`onConfirm` callback that will invoke `onWidgetSelect` on the widget. -/
inductive ClickAction where
  | direct (selected : WidgetTemplate)
  | modal (onConfirmSelects : WidgetTemplate)
deriving DecidableEq, Repr

/-- `getLibrarySelectionHandler(widget, ...)`'s returned
`handleWidgetSelect`: with `bypassOverwriteModal` it calls
`onWidgetSelect(widget)` and returns; otherwise it opens
`openWidgetBuilderOverwriteModal` with `onConfirm: () =>
onWidgetSelect(widget)`. -/
def handleWidgetSelect (bypassOverwriteModal : Bool)
    (widget : WidgetTemplate) : ClickAction :=
  if bypassOverwriteModal then ClickAction.direct widget
  else ClickAction.modal widget

/-!
## Example values

Concrete readers, crumbs, spans and widgets used by the witness theorems
and counterexamples.
-/

/-- A default-type console breadcrumb (spec Scenario 1's first crumb). -/
def consoleCrumb : RawCrumb :=
  { type := "default", category := some "console", message := some "x" }

/-- A default-type network-category breadcrumb (Scenario 1's second). -/
def networkCrumb : RawCrumb :=
  { type := "default", category := some "network", message := some "y" }

/-- A console-category crumb of a non-default breadcrumb type. -/
def httpTypeCrumb : RawCrumb :=
  { type := "http", category := some "console", message := none }

/-- A crumb with an absent category. -/
def noCategoryCrumb : RawCrumb :=
  { type := "default", category := none, message := some "z" }

/-- A memory-kind span (spec Scenario 2's first span). -/
def memSpan : RawSpan :=
  { op := "memory", startTimestamp := 1, endTimestamp := 2, data := 1 }

/-- An http-kind span (Scenario 2's second span). -/
def httpSpan : RawSpan :=
  { op := "http", startTimestamp := 3, endTimestamp := 5, data := 2 }

/-- A concrete replay event. -/
def exEvent : Event :=
  { id := "ev1", projectID := "p1", startTimestamp := 100 }

/-- A concrete reader: identity `0`, Scenario 1's crumbs and Scenario 2's
spans, classifying spans by their `op` tag. -/
def readerA : ReplayReader :=
  { rid := 0
    rawSpans := [memSpan, httpSpan]
    rawCrumbs := [consoleCrumb, networkCrumb]
    event := exEvent
    isMemorySpan := fun s => s.op == "memory"
    isNotMemorySpan := fun s => !(s.op == "memory") }

/-- A second reader with a distinct object identity. -/
def readerB : ReplayReader :=
  { readerA with rid := 1, rawSpans := [httpSpan] }

/-- A concrete shared context. -/
def exCtx : SharedContext :=
  { currentTime := 7, currentHoverTime := some 3 }

/-- A release-type widget template. -/
def releaseWidget : WidgetTemplate :=
  { title := "Release Health", widgetType := WidgetType.release
    displayType := "line", queries := ["q1"] }

/-- A discover-type widget template. -/
def discoverWidget : WidgetTemplate :=
  { title := "Total Errors", widgetType := WidgetType.discover
    displayType := "top_n", queries := ["q2"] }

/-- A trivial concrete query normaliser standing for `normalizeQueries`. -/
def idNormalize : String → List String → Bool → WidgetType → List String :=
  fun _ qs _ _ => qs

/-!
## Theorems
-/

/-- C1: when the source record is unavailable (`replay` is null, hence the
memory-span derived input is also unavailable), the dispatcher returns the
placeholder output, for every active key and every shared context — in the
source the switch over the registered panels is never reached. -/
theorem focusArea_null_replay_placeholder (active : String)
    (ctx : SharedContext) :
    FocusArea none active ctx = ViewOutput.placeholder "150px" := rfl

/-- C2: with the source record available, a resolved active key that is
none of the registered panel keys reaches the switch's `default` branch,
so the dispatcher returns the empty output (`null`); the dispatcher is a
total function, so it cannot throw. -/
theorem focusArea_unknown_key_empty (r : ReplayReader) (ctx : SharedContext)
    (active : String) (h1 : active ≠ "console") (h2 : active ≠ "network")
    (h3 : active ≠ "trace") (h4 : active ≠ "issues") (h5 : active ≠ "tags")
    (h6 : active ≠ "memory") :
    FocusArea (some r) active ctx = ViewOutput.empty := by
  simp [FocusArea, h1, h2, h3, h4, h5, h6]

/-- Witness for C2 at the spec's Scenario 4 input `"unknown-tab"`. -/
theorem focusArea_unknown_key_empty_witness :
    FocusArea (some readerA) "unknown-tab" exCtx = ViewOutput.empty :=
  focusArea_unknown_key_empty readerA exCtx "unknown-tab" (by decide)
    (by decide) (by decide) (by decide) (by decide) (by decide)

/-- C3: with the source record available and the active key `memory`, the
list handed to the memory panel is exactly the raw spans satisfying the
reader's memory-span predicate: a span is in it iff it is a raw span of
the record and the predicate holds of it. -/
theorem focusArea_memory_exact (r : ReplayReader) (ctx : SharedContext) :
    ∃ ms, FocusArea (some r) "memory" ctx =
        ViewOutput.memory ctx.currentTime ctx.currentHoverTime ms
          r.event.startTimestamp ∧
      ∀ s, s ∈ ms ↔ s ∈ r.rawSpans ∧ r.isMemorySpan s = true := by
  refine ⟨r.rawSpans.filter r.isMemorySpan, ?_, ?_⟩
  · simp [FocusArea]
  · intro s
    simp [List.mem_filter]

/-- Witness for C3 at the spec's Scenario 2 record: the panel receives
only the memory-kind span. -/
theorem focusArea_memory_exact_witness :
    ∃ ms, FocusArea (some readerA) "memory" exCtx =
        ViewOutput.memory exCtx.currentTime exCtx.currentHoverTime ms
          readerA.event.startTimestamp ∧
      ∀ s, s ∈ ms ↔ s ∈ readerA.rawSpans ∧ readerA.isMemorySpan s = true :=
  focusArea_memory_exact readerA exCtx

/-- C4: with the source record available and the active key `console`,
every breadcrumb handed to the console panel has category `console`; and
for a record whose breadcrumbs are one default-type `console`-category
crumb and one `network`-category crumb, the panel receives exactly the
`console` one. -/
theorem focusArea_console_only_console (r : ReplayReader)
    (ctx : SharedContext) (c1 c2 : RawCrumb)
    (h1 : c1.category = some "console")
    (h2 : isBreadcrumbTypeDefault c1 = true)
    (h3 : c2.category = some "network") :
    (∃ bs, FocusArea (some r) "console" ctx =
        ViewOutput.console bs r.event.startTimestamp ∧
      ∀ c ∈ bs, c.category = some "console") ∧
    FocusArea (some { r with rawCrumbs := [c1, c2] }) "console" ctx =
      ViewOutput.console [c1] r.event.startTimestamp := by
  constructor
  · refine ⟨getBreadcrumbsByCategory r.rawCrumbs ["console"], by simp [FocusArea], ?_⟩
    intro c hc
    rcases List.mem_filter.mp hc with ⟨-, hcat⟩
    cases hcase : c.category with
    | none => simp [hcase] at hcat
    | some a =>
      simp [hcase] at hcat
      simp [hcat]
  · have hgb : getBreadcrumbsByCategory [c1, c2] ["console"] = [c1] := by
      cases hdef : isBreadcrumbTypeDefault c2 <;>
        simp [getBreadcrumbsByCategory, List.filter, h1, h2, h3, hdef]
    simp [FocusArea, hgb]

/-- Witness for C4 at the spec's Scenario 1 crumbs. -/
theorem focusArea_console_only_console_witness :
    (∃ bs, FocusArea (some readerA) "console" exCtx =
        ViewOutput.console bs readerA.event.startTimestamp ∧
      ∀ c ∈ bs, c.category = some "console") ∧
    FocusArea (some { readerA with rawCrumbs := [consoleCrumb, networkCrumb] })
        "console" exCtx =
      ViewOutput.console [consoleCrumb] readerA.event.startTimestamp :=
  focusArea_console_only_console readerA exCtx consoleCrumb networkCrumb
    (by decide) (by decide) (by decide)

/-- C5: the derived-input cache is keyed on source-record identity. After
a first access with reader `r1` (allocated at tag `t1`), a second access
with the same reader returns the same cached state and reference with no
recomputation; an access with a reader of new identity (and a fresh
allocation tag) recomputes and returns a reference distinct from the
cached one. -/
theorem memorySpansMemo_identity_keyed (r1 r2 : ReplayReader) (t1 t2 : Nat)
    (hid : r1.rid ≠ r2.rid) (ht : t2 ≠ t1) :
    memorySpansMemo (some (memorySpansMemo none r1 t1).1) r1 t2 =
        ((memorySpansMemo none r1 t1).1, false) ∧
      (memorySpansMemo (some (memorySpansMemo none r1 t1).1) r2 t2).2 =
        true ∧
      (memorySpansMemo (some (memorySpansMemo none r1 t1).1) r2 t2).1.cached.tag ≠
        (memorySpansMemo none r1 t1).1.cached.tag := by
  refine ⟨?_, ?_, ?_⟩ <;> simp [memorySpansMemo, useMemoStep, hid, ht]

/-- Witness for C5 with readers of identities `0` and `1` and allocation
tags `0` then `1`. -/
theorem memorySpansMemo_identity_keyed_witness :
    memorySpansMemo (some (memorySpansMemo none readerA 0).1) readerA 1 =
        ((memorySpansMemo none readerA 0).1, false) ∧
      (memorySpansMemo (some (memorySpansMemo none readerA 0).1) readerB 1).2 =
        true ∧
      (memorySpansMemo (some (memorySpansMemo none readerA 0).1) readerB 1).1.cached.tag ≠
        (memorySpansMemo none readerA 0).1.cached.tag :=
  memorySpansMemo_identity_keyed readerA readerB 0 1 (by decide) (by decide)

/-- C6 counterexample: a dispatch with active key `console` — whose panel
does not require the memory subset — still computes the memory-subset
derived input, because the `useMemo` at the top of `FocusArea` runs
before the switch and its result also feeds the readiness guard. This
refutes the claim's second half as stated. -/
theorem memorySubset_computed_on_console_dispatch :
    requiresMemorySubset "console" = false ∧
      Step.computeMemorySubset ∈ dispatchTrace (some readerA) "console" := by
  constructor
  · decide
  · simp [dispatchTrace, branchSteps]

/-- C6 amended: during one dispatch with the source record available, the
non-memory subset is computed iff the active key is `network` (so the
memory panel's dispatch never computes it), while the memory subset is
computed on every such dispatch regardless of the active key, since it
also serves the readiness guard. -/
theorem derived_input_computation (r : ReplayReader) (active : String) :
    (Step.computeNonMemorySubset ∈ dispatchTrace (some r) active ↔
        active = "network") ∧
      Step.computeMemorySubset ∈ dispatchTrace (some r) active ∧
      Step.computeNonMemorySubset ∉ dispatchTrace (some r) "memory" := by
  refine ⟨?_, ?_, ?_⟩
  · simp only [dispatchTrace, branchSteps]
    split_ifs with h1 h2 h3 h4 h5 h6 <;> simp_all
  · simp [dispatchTrace]
  · simp [dispatchTrace, branchSteps]

/-- Witness for C6's amended statement at the `network` dispatch. -/
theorem derived_input_computation_witness :
    (Step.computeNonMemorySubset ∈ dispatchTrace (some readerA) "network" ↔
        ("network" : String) = "network") ∧
      Step.computeMemorySubset ∈ dispatchTrace (some readerA) "network" ∧
      Step.computeNonMemorySubset ∉ dispatchTrace (some readerA) "memory" :=
  derived_input_computation readerA "network"

/-- C7 counterexample: in a dispatch where the source record is
unavailable (readiness fails), the trace still begins with the active-key
resolution step — `useActiveTabFromLocation()` runs unconditionally at
the top of `FocusArea`, before the readiness guard — so the readiness
check is not completed first and resolution is attempted without
readiness holding, refuting the claim as stated. -/
theorem resolveKey_precedes_readiness_check :
    Step.resolveKey ∈
        (dispatchTrace none "trace").takeWhile
          (fun s => s != Step.readinessCheck) ∧
      dispatchTrace none "trace" = [Step.resolveKey, Step.readinessCheck] := by
  constructor
  · decide
  · decide

/-- C7 amended: within one dispatch the steps occur in a fixed order, but
active-key resolution comes first, unconditionally, before readiness is
known (it is a hook call at the top of the component); it is followed by
the memory-subset computation when the record is present, then the
readiness check; the switch's panel lookup happens only after the
readiness check and only when the source record is available. -/
theorem dispatch_fixed_order (replay : Option ReplayReader)
    (active : String) :
    Step.readinessCheck ∈ dispatchTrace replay active ∧
      (dispatchTrace replay active).takeWhile
          (fun s => s != Step.readinessCheck) =
        (if replay.isSome then [Step.resolveKey, Step.computeMemorySubset]
          else [Step.resolveKey]) ∧
      (Step.lookupPanel ∈ dispatchTrace replay active ↔
        replay.isSome = true) := by
  cases replay <;>
    simp [dispatchTrace, branchSteps, List.takeWhile] <;> decide

/-- Witness for C7's amended statement at an available record and the
`tags` key. -/
theorem dispatch_fixed_order_witness :
    Step.readinessCheck ∈ dispatchTrace (some readerA) "tags" ∧
      (dispatchTrace (some readerA) "tags").takeWhile
          (fun s => s != Step.readinessCheck) =
        (if (some readerA).isSome then
          [Step.resolveKey, Step.computeMemorySubset]
          else [Step.resolveKey]) ∧
      (Step.lookupPanel ∈ dispatchTrace (some readerA) "tags" ↔
        (some readerA).isSome = true) :=
  dispatch_fixed_order (some readerA) "tags"

/-- C8: in the `network` case the dispatcher hands the `Spans` view a
synthetic event whose trace context carries span id
`replay_network_trace` and whose single `spans` entry holds exactly the
projected non-memory spans: each has `parent_span_id` set to
`replay_network_trace` and comes from a raw span satisfying the reader's
not-memory predicate, with `timestamp` the raw span's `endTimestamp` and
`start_timestamp` its `startTimestamp`. -/
theorem focusArea_network_synthetic (r : ReplayReader)
    (ctx : SharedContext) :
    ∃ ev, FocusArea (some r) "network" ctx = ViewOutput.spansView ev ∧
      ev.contexts_trace.span_id = "replay_network_trace" ∧
      ∃ e, ev.entries = [e] ∧ e.type = "spans" ∧
        e.data = (r.rawSpans.filter r.isNotMemorySpan).map fakeNetworkSpan ∧
        ∀ s ∈ e.data, s.parent_span_id = "replay_network_trace" ∧
          ∃ raw, raw ∈ r.rawSpans ∧ r.isNotMemorySpan raw = true ∧
            s.timestamp = raw.endTimestamp ∧
            s.start_timestamp = raw.startTimestamp := by
  refine ⟨_, rfl, rfl, _, rfl, rfl, rfl, ?_⟩
  intro s hs
  rcases List.mem_map.mp hs with ⟨raw, hraw, rfl⟩
  rcases List.mem_filter.mp hraw with ⟨hmem, hp⟩
  exact ⟨rfl, raw, hmem, hp, rfl, rfl⟩

/-- Witness for C8 at the concrete reader. -/
theorem focusArea_network_synthetic_witness :
    ∃ ev, FocusArea (some readerA) "network" exCtx =
        ViewOutput.spansView ev ∧
      ev.contexts_trace.span_id = "replay_network_trace" ∧
      ∃ e, ev.entries = [e] ∧ e.type = "spans" ∧
        e.data = (readerA.rawSpans.filter readerA.isNotMemorySpan).map
          fakeNetworkSpan ∧
        ∀ s ∈ e.data, s.parent_span_id = "replay_network_trace" ∧
          ∃ raw, raw ∈ readerA.rawSpans ∧
            readerA.isNotMemorySpan raw = true ∧
            s.timestamp = raw.endTimestamp ∧
            s.start_timestamp = raw.startTimestamp :=
  focusArea_network_synthetic readerA exCtx

/-- C9: every crumb returned by `getBreadcrumbsByCategory` satisfies the
default-breadcrumb-type predicate as well as the category match; a crumb
not of the default type is never in the result, whatever its category;
and a crumb with an absent category is matched as if its category were
the empty string. -/
theorem getBreadcrumbsByCategory_characterization (crumbs : List RawCrumb)
    (cats : List String) :
    (∀ c ∈ getBreadcrumbsByCategory crumbs cats,
        isBreadcrumbTypeDefault c = true ∧
          cats.contains (c.category.getD "") = true) ∧
      (∀ c, isBreadcrumbTypeDefault c = false →
        c ∉ getBreadcrumbsByCategory crumbs cats) ∧
      (∀ c ∈ crumbs, c.category = none →
        (c ∈ getBreadcrumbsByCategory crumbs cats ↔
          isBreadcrumbTypeDefault c = true ∧ cats.contains "" = true)) := by
  refine ⟨?_, ?_, ?_⟩
  · intro c hc
    rcases List.mem_filter.mp hc with ⟨hdef, hcat⟩
    exact ⟨(List.mem_filter.mp hdef).2, hcat⟩
  · intro c hnd hc
    rcases List.mem_filter.mp hc with ⟨hdef, -⟩
    simp [(List.mem_filter.mp hdef).2] at hnd
  · intro c hmem hnone
    constructor
    · intro hc
      rcases List.mem_filter.mp hc with ⟨hdef, hcat⟩
      rw [hnone] at hcat
      exact ⟨(List.mem_filter.mp hdef).2, hcat⟩
    · intro ⟨hdef, hcat⟩
      refine List.mem_filter.mpr ⟨List.mem_filter.mpr ⟨hmem, hdef⟩, ?_⟩
      rw [hnone]
      exact hcat

/-- Witness for C9: a console-category crumb of non-default type is
excluded; a default-type crumb with an absent category is matched via the
empty-string category. -/
theorem getBreadcrumbsByCategory_characterization_witness :
    httpTypeCrumb ∉
        getBreadcrumbsByCategory [httpTypeCrumb, noCategoryCrumb] [""] ∧
      noCategoryCrumb ∈
        getBreadcrumbsByCategory [httpTypeCrumb, noCategoryCrumb] [""] :=
  ⟨(getBreadcrumbsByCategory_characterization
      [httpTypeCrumb, noCategoryCrumb] [""]).2.1 httpTypeCrumb (by decide),
    ((getBreadcrumbsByCategory_characterization
      [httpTypeCrumb, noCategoryCrumb] [""]).2.2 noCategoryCrumb
      (by decide) (by decide)).mpr (by decide)⟩

/-- C10: without the `dashboards-releases` feature, no release-type widget
appears among the rendered cards; with it, the default widget list is
rendered unfiltered (each card mapped through the display/query
transformation only). A card click invokes `onWidgetSelect` directly iff
`bypassOverwriteModal` is set; otherwise the overwrite modal is opened
and `onWidgetSelect` runs only through its `onConfirm` callback. -/
theorem widgetLibrary_gate_and_click (dw : List WidgetTemplate)
    (features : List String) (nd : Bool)
    (nq : String → List String → Bool → WidgetType → List String)
    (w : WidgetTemplate) :
    (features.contains "dashboards-releases" = false →
        ∀ x ∈ renderedCards dw features nd nq,
          x.widgetType ≠ WidgetType.release) ∧
      (features.contains "dashboards-releases" = true →
        renderedCards dw features nd nq = dw.map (toNewWidget nd nq)) ∧
      handleWidgetSelect true w = ClickAction.direct w ∧
      handleWidgetSelect false w = ClickAction.modal w ∧
      (∀ b, handleWidgetSelect b w = ClickAction.direct w ↔ b = true) := by
  refine ⟨?_, ?_, rfl, rfl, ?_⟩
  · intro hf x hx
    have hf' : "dashboards-releases" ∉ features := by simpa using hf
    rcases List.mem_map.mp hx with ⟨y, hy, rfl⟩
    have hy' : y ∈ dw.filter
        (fun widget => !(widget.widgetType == WidgetType.release)) := by
      simpa [renderedCards, libraryWidgets, hf'] using hy
    have hrel := (List.mem_filter.mp hy').2
    simp only [Bool.not_eq_true', beq_eq_false_iff_ne, ne_eq] at hrel
    exact hrel
  · intro hf
    have hf' : "dashboards-releases" ∈ features := by simpa using hf
    simp [renderedCards, libraryWidgets, hf']
  · intro b
    cases b <;> simp [handleWidgetSelect]

/-- Witness for C10: with no features, the rendered cards of a library
holding one release-type and one discover-type widget contain no
release-type card. -/
theorem widgetLibrary_gate_and_click_witness :
    (toNewWidget true idNormalize discoverWidget).widgetType ≠
      WidgetType.release :=
  (widgetLibrary_gate_and_click [releaseWidget, discoverWidget] [] true
      idNormalize discoverWidget).1 (by decide)
    (toNewWidget true idNormalize discoverWidget) (by decide)

end Sentry
